import Mathlib

/-!
Verification of the SD Studio dashboard session-lifecycle controller.

The definitions below are a shallow embedding of the Python sources
`sd_dashboard.py`, `sd_vm_control.py` and `sd_analytics.py`:

* timestamps are modelled as `Int` seconds (Python uses `time.time()` floats;
  all comparisons in the source are on whole-second thresholds);
* the module-level mutable globals of `sd_dashboard.py` become the fields of
  `DashState`;
* the SQLite auto-increment allocator of `sd_analytics.start_session` becomes
  the `next_session_id` counter;
* network calls return values supplied as explicit inputs (`GcpResult`,
  the stop-call outcome `stopOk`), and the observable side effects of one
  iteration of the background monitor loop are collected in a `List Event`.
-/

namespace SDStudio

/-- Constant `MAX_SESSION_SECONDS = 2 * 60 * 60` from `sd_dashboard.py`. -/
def MAX_SESSION_SECONDS : Int := 2 * 60 * 60

/-- Constant `INACTIVITY_TIMEOUT_SECONDS = 15 * 60` from `sd_dashboard.py`. -/
def INACTIVITY_TIMEOUT_SECONDS : Int := 15 * 60

/-- Outcome of the raw GCP instance GET as produced by `api_request`:
either an error dict (message plus HTTP code) or a payload whose
`status` field holds the instance status string. -/
structure GcpResult where
  error : Option String
  code : Option Int
  status : String
deriving Repr, DecidableEq

/-- The dict returned by `get_vm_status`.  In the error branch the source
builds `{"status": ..., "error": ..., "exists": False}` — the HTTP `code`
key of the underlying `api_request` result is *not* propagated, so `code`
is `none` on every path. -/
structure VmStatusDict where
  status : String
  error : Option String
  code : Option Int
deriving Repr, DecidableEq

/-- Function `sd_vm_control.get_vm_status`: an error result maps to status
`"NOT_FOUND"` (HTTP 404) or `"ERROR"` (anything else, including 401);
otherwise the GCP payload status is passed through. -/
def get_vm_status (r : GcpResult) : VmStatusDict :=
  match r.error with
  | some e =>
      { status := if r.code = some 404 then "NOT_FOUND" else "ERROR"
        error := some e
        code := none }
  | none => { status := r.status, error := none, code := none }

/-- The module-level mutable globals of `sd_dashboard.py`. -/
structure DashState where
  last_activity_time : Int
  vm_start_time : Option Int
  shutdown_warning_sent : Bool
  session_warning_sent : Bool
  auto_shutdown_enabled : Bool
  current_session_id : Option Int
  gcp_token : Option String
  next_session_id : Int
deriving Repr, DecidableEq

/-- Observable side effects of the controller: Gateway calls, Recorder
calls, warning prints, and shutdown triggers (with their reason string). -/
inductive Event where
  | gatewayStatus
  | gatewayStop (success : Bool)
  | beginRecord (id : Int)
  | endRecord (id : Int) (runtime : Int)
  | sessionWarning
  | inactivityWarning
  | shutdown (reason : String)
deriving Repr, DecidableEq

/-- Python truthiness of an optional integer (`None` and `0` are falsy). -/
def truthyInt : Option Int → Bool
  | none => false
  | some v => v != 0

/-- Python truthiness of an optional string (`None` and `""` are falsy). -/
def truthyStr : Option String → Bool
  | none => false
  | some t => t != ""

/-- Function `update_activity`: set `last_activity_time = now`, clear
`shutdown_warning_sent` (the inactivity-warning latch). -/
def update_activity (now : Int) (s : DashState) : DashState :=
  { s with last_activity_time := now, shutdown_warning_sent := false }

/-- Function `set_vm_start_time`: when no start time is recorded, record `now`,
reset the session warning latch and open a new analytics session
(`start_session` returns the next auto-increment row id). -/
def set_vm_start_time (now : Int) (s : DashState) : DashState × List Event :=
  match s.vm_start_time with
  | none =>
      ({ s with
          vm_start_time := some now
          session_warning_sent := false
          current_session_id := some s.next_session_id
          next_session_id := s.next_session_id + 1 },
       [Event.beginRecord s.next_session_id])
  | some _ => (s, [])

/-- Function `clear_vm_start_time`: end the analytics session when both
`current_session_id` and `vm_start_time` are truthy (with runtime
`now - vm_start_time`), then clear the start time, the session warning
latch and the session id. -/
def clear_vm_start_time (now : Int) (s : DashState) : DashState × List Event :=
  let evs :=
    match s.current_session_id, s.vm_start_time with
    | some i, some t => if i ≠ 0 ∧ t ≠ 0 then [Event.endRecord i (now - t)] else []
    | _, _ => []
  ({ s with
      vm_start_time := none
      session_warning_sent := false
      current_session_id := none }, evs)

/-- Function `get_inactivity_seconds`. -/
def get_inactivity_seconds (now : Int) (s : DashState) : Int :=
  now - s.last_activity_time

/-- Function `get_session_seconds`. -/
def get_session_seconds (now : Int) (s : DashState) : Int :=
  match s.vm_start_time with
  | none => 0
  | some t => now - t

/-- Function `get_time_until_inactivity_shutdown`. -/
def get_time_until_inactivity_shutdown (now : Int) (s : DashState) : Int :=
  max 0 (INACTIVITY_TIMEOUT_SECONDS - get_inactivity_seconds now s)

/-- Function `get_time_until_session_end`. -/
def get_time_until_session_end (now : Int) (s : DashState) : Int :=
  match s.vm_start_time with
  | none => MAX_SESSION_SECONDS
  | some _ => max 0 (MAX_SESSION_SECONDS - get_session_seconds now s)

/-- Function `auto_shutdown_vm`: when a token is present, issue the Gateway stop
call (`stopOk` is its outcome — the source only prints it), then
unconditionally `clear_vm_start_time`. -/
def auto_shutdown_vm (reason : String) (now : Int) (stopOk : Bool) (s : DashState) :
    DashState × List Event :=
  let stopEvs := if truthyStr s.gcp_token then [Event.gatewayStop stopOk] else []
  let cleared := clear_vm_start_time now s
  (cleared.1, Event.shutdown reason :: stopEvs ++ cleared.2)

/-- One iteration of the `inactivity_monitor` background loop, at wall
clock `now`, where the Gateway status query would return `gcp` and a stop
call would return `stopOk`.  Mirrors the body after `time.sleep(30)`. -/
def inactivity_monitor_iter (now : Int) (stopOk : Bool) (gcp : GcpResult)
    (s : DashState) : DashState × List Event :=
  if !s.auto_shutdown_enabled || !truthyStr s.gcp_token then (s, [])
  else
    let st := get_vm_status gcp
    if st.status ≠ "RUNNING" then
      let cleared := clear_vm_start_time now s
      (cleared.1, Event.gatewayStatus :: cleared.2)
    else
      let opened := set_vm_start_time now s
      let s1 := opened.1
      let sessionRemaining := get_time_until_session_end now s1
      let warned :=
        if sessionRemaining ≤ 300 ∧ sessionRemaining > 0 ∧ !s1.session_warning_sent then
          ({ s1 with session_warning_sent := true }, [Event.sessionWarning])
        else (s1, ([] : List Event))
      let s2 := warned.1
      if sessionRemaining ≤ 0 then
        let down := auto_shutdown_vm "session_limit" now stopOk s2
        (update_activity now down.1,
         Event.gatewayStatus :: (opened.2 ++ warned.2 ++ down.2))
      else
        let inactivityRemaining := get_time_until_inactivity_shutdown now s2
        let iwarned :=
          if inactivityRemaining ≤ 120 ∧ inactivityRemaining > 0 ∧
              !s2.shutdown_warning_sent then
            ({ s2 with shutdown_warning_sent := true }, [Event.inactivityWarning])
          else (s2, ([] : List Event))
        let s3 := iwarned.1
        if inactivityRemaining ≤ 0 then
          let down := auto_shutdown_vm "inactivity" now stopOk s3
          (update_activity now down.1,
           Event.gatewayStatus :: (opened.2 ++ warned.2 ++ iwarned.2 ++ down.2))
        else (s3, Event.gatewayStatus :: (opened.2 ++ warned.2 ++ iwarned.2))

/-- The test `"expired" in str(error).lower()` — substring test used by
`api_set_token` on the status error message. -/
def contains_expired (e : Option String) : Bool :=
  match e with
  | none => false
  | some msg => (msg.toLower.splitOn "expired").length > 1

/-- The `/api/token` handler (`api_set_token`): validate by probing
`get_vm_status` with the new token; reject empty tokens, expired tokens
and 401s; on success store the token and record activity. -/
def api_set_token (now : Int) (token : String) (gcp : GcpResult)
    (s : DashState) : DashState :=
  if token = "" then s
  else
    let st := get_vm_status gcp
    if truthyStr st.error ∧ contains_expired st.error then s
    else if truthyStr st.error ∧ st.code = some 401 then s
    else update_activity now { s with gcp_token := some token }

/-- The `/api/status` handler (`api_status`): with a token present, record
activity, query `get_full_status` (whose status dict comes from
`get_vm_status`), and drop the token when the dict carries an error with
code 401 — unreachable, since `get_vm_status` never emits a `code`. -/
def api_status (now : Int) (gcp : GcpResult) (s : DashState) : DashState :=
  if !truthyStr s.gcp_token then s
  else
    let s1 := update_activity now s
    let st := get_vm_status gcp
    if truthyStr st.error ∧ st.code = some 401 then { s1 with gcp_token := none }
    else s1

/-- The `/api/start` handler: with a token present, record activity and
forward to the Gateway start call (no SessionState effect). -/
def api_start (now : Int) (s : DashState) : DashState :=
  if !truthyStr s.gcp_token then s else update_activity now s

/-- The `/api/stop` handler: with a token present, immediately
`clear_vm_start_time` and then issue the Gateway stop call. -/
def api_stop (now : Int) (stopOk : Bool) (s : DashState) : DashState × List Event :=
  if !truthyStr s.gcp_token then (s, [])
  else
    let cleared := clear_vm_start_time now s
    (cleared.1, cleared.2 ++ [Event.gatewayStop stopOk])

/-- The `/api/keepalive` handler: just `update_activity`. -/
def api_keepalive (now : Int) (s : DashState) : DashState :=
  update_activity now s

/-- The `/api/track` handler (`api_track`): record activity; when no session
id is held, adopt the open session found in the analytics DB (`dbOpen`
models `get_current_session`) or start a fresh one; then log the
generation (no further controller-state effect). -/
def api_track (now : Int) (dbOpen : Option Int) (s : DashState) : DashState :=
  let s1 := update_activity now s
  if truthyInt s1.current_session_id then s1
  else
    match dbOpen with
    | some i => { s1 with current_session_id := some i }
    | none =>
        { s1 with
            current_session_id := some s1.next_session_id
            next_session_id := s1.next_session_id + 1 }

/-- A user-facing entry point or a monitor poll, with its inputs. -/
inductive Op where
  | poll (now : Int) (stopOk : Bool) (gcp : GcpResult)
  | setToken (now : Int) (token : String) (gcp : GcpResult)
  | statusQuery (now : Int) (gcp : GcpResult)
  | start (now : Int)
  | stop (now : Int) (stopOk : Bool)
  | keepalive (now : Int)
  | track (now : Int) (dbOpen : Option Int)

/-- State effect of one operation. -/
def applyOp (op : Op) (s : DashState) : DashState :=
  match op with
  | .poll now stopOk gcp => (inactivity_monitor_iter now stopOk gcp s).1
  | .setToken now token gcp => api_set_token now token gcp s
  | .statusQuery now gcp => api_status now gcp s
  | .start now => api_start now s
  | .stop now stopOk => (api_stop now stopOk s).1
  | .keepalive now => api_keepalive now s
  | .track now dbOpen => api_track now dbOpen s

/-- The globals as initialised at module import (process start, taken as
time 0): no session, no token, warnings clear, auto-shutdown enabled. -/
def initState : DashState :=
  { last_activity_time := 0
    vm_start_time := none
    shutdown_warning_sent := false
    session_warning_sent := false
    auto_shutdown_enabled := true
    current_session_id := none
    gcp_token := none
    next_session_id := 1 }

/-- States reachable from process start by any sequence of polls and
user-facing entry-point calls. -/
inductive Reachable : DashState → Prop where
  | init : Reachable initState
  | step : ∀ s op, Reachable s → Reachable (applyOp op s)

/-- Run the monitor loop over the given poll times (every Gateway status
query answers `gcp`), collecting timestamped events. -/
def runPolls (stopOk : Bool) (gcp : GcpResult) (times : List Int)
    (s : DashState) : DashState × List (Int × Event) :=
  match times with
  | [] => (s, [])
  | t :: rest =>
      let step := inactivity_monitor_iter t stopOk gcp s
      let tail := runPolls stopOk gcp rest step.1
      (tail.1, step.2.map (fun e => (t, e)) ++ tail.2)

/-- Like `runPolls`, but a keep-alive request (`/api/keepalive`) lands
just before every poll. -/
def runPollsKeepalive (stopOk : Bool) (gcp : GcpResult) (times : List Int)
    (s : DashState) : DashState × List (Int × Event) :=
  match times with
  | [] => (s, [])
  | t :: rest =>
      let step := inactivity_monitor_iter t stopOk gcp (api_keepalive t s)
      let tail := runPollsKeepalive stopOk gcp rest step.1
      (tail.1, step.2.map (fun e => (t, e)) ++ tail.2)

/-- Poll times `cadence, 2*cadence, …, n*cadence` (the loop sleeps before
its first poll). -/
def pollTimes (cadence : Int) (n : Nat) : List Int :=
  (List.range n).map (fun k => cadence * ((k : Int) + 1))

/-- The reasons of the shutdown events in an event list, in order. -/
def shutdownReasons (evs : List Event) : List String :=
  evs.filterMap (fun e =>
    match e with
    | Event.shutdown r => some r
    | _ => none)

/-- One row of the `sessions` table of `sd_analytics.py`, with the
counters accumulated by `track_generation`. -/
structure SessionRow where
  id : Int
  total_images : Int
  total_duration_ms : Int
deriving Repr, DecidableEq

/-- The dict returned by `get_session_stats`: the stored counters
extended with the two derived averages. -/
structure SessionStats where
  total_images : Int
  total_duration_ms : Int
  avg_duration_ms : ℚ
  avg_seconds_per_image : ℚ
deriving Repr, DecidableEq

/-- Function `sd_analytics.get_session_stats`: look the row up by id (`none`
models the empty dict returned for a missing session); divide only when
`total_images > 0`, otherwise report 0 for both averages. -/
def get_session_stats (db : List SessionRow) (sid : Int) : Option SessionStats :=
  match db.find? (fun r => r.id == sid) with
  | none => none
  | some r =>
      if r.total_images > 0 then
        some { total_images := r.total_images
               total_duration_ms := r.total_duration_ms
               avg_duration_ms := (r.total_duration_ms : ℚ) / (r.total_images : ℚ)
               avg_seconds_per_image :=
                 ((r.total_duration_ms : ℚ) / 1000) / (r.total_images : ℚ) }
      else
        some { total_images := r.total_images
               total_duration_ms := r.total_duration_ms
               avg_duration_ms := 0
               avg_seconds_per_image := 0 }

/-- The aggregate row computed by `get_all_time_stats` (`COUNT` and
`SUM`s over the whole `sessions` table) with its derived average. -/
structure AllTimeStats where
  total_sessions : Int
  total_images : Int
  total_duration_ms : Int
  avg_seconds_per_image : ℚ
deriving Repr, DecidableEq

/-- Function `sd_analytics.get_all_time_stats` (the numeric part). -/
def get_all_time_stats (db : List SessionRow) : AllTimeStats :=
  let imgs := (db.map (fun r => r.total_images)).sum
  let dur := (db.map (fun r => r.total_duration_ms)).sum
  { total_sessions := (db.length : Int)
    total_images := imgs
    total_duration_ms := dur
    avg_seconds_per_image :=
      if imgs > 0 then ((dur : ℚ) / 1000) / (imgs : ℚ) else 0 }

/-- A Gateway answer reporting a running instance. -/
def runningOk : GcpResult := { error := none, code := none, status := "RUNNING" }

/-- A Gateway answer reporting a provisioning/staging instance. -/
def stagingOk : GcpResult := { error := none, code := none, status := "STAGING" }

/-- The Gateway answer produced by rejected credentials: `api_request`
maps an HTTP 401 to this error dict. -/
def err401 : GcpResult :=
  { error := some "Token expired or invalid", code := some 401, status := "" }

/-- Process start with a token already supplied. -/
def tokState : DashState := { initState with gcp_token := some "tok" }

/-- A state with an open session: record 1 begun at t = 50, last
activity at t = 40, token present. -/
def openSession : DashState :=
  { last_activity_time := 40
    vm_start_time := some 50
    shutdown_warning_sent := false
    session_warning_sent := false
    auto_shutdown_enabled := true
    current_session_id := some 1
    gcp_token := some "tok"
    next_session_id := 2 }

/-- The record-consistency invariant of the claim set: an open start
time implies a held session id. -/
def record_inv (s : DashState) : Prop :=
  s.vm_start_time.isSome = true → s.current_session_id.isSome = true

theorem get_vm_status_ok (r : GcpResult) (h : r.error = none) :
    get_vm_status r = { status := r.status, error := none, code := none } := by
  unfold get_vm_status
  rw [h]

theorem get_vm_status_err (r : GcpResult) (e : String) (h : r.error = some e) :
    get_vm_status r =
      { status := if r.code = some 404 then "NOT_FOUND" else "ERROR"
        error := some e
        code := none } := by
  unfold get_vm_status
  rw [h]

/-- C9: `update_activity` (the `notifyActivity` entry point) sets the
last-activity timestamp to the current time — so the remaining
inactivity time evaluated at that same instant equals the full
15-minute timeout, whatever it was before, even if already expired —
and it clears the inactivity warning latch `shutdown_warning_sent`. -/
theorem c9_notify_resets_clock (s : DashState) (now : Int) :
    get_time_until_inactivity_shutdown now (update_activity now s)
        = INACTIVITY_TIMEOUT_SECONDS ∧
    (update_activity now s).shutdown_warning_sent = false := by
  constructor
  · simp [get_time_until_inactivity_shutdown, get_inactivity_seconds,
      update_activity, INACTIVITY_TIMEOUT_SECONDS]
  · rfl

/-- C6: `auto_shutdown_vm` closes the session no matter whether the
Gateway stop call is issued (token present) or succeeds (`stopOk`): it
ends the open record with the elapsed runtime `now - t` and clears the
start time and session id. -/
theorem c6_shutdown_always_closes (s : DashState) (reason : String) (now : Int)
    (stopOk : Bool) (i t : Int)
    (hi : s.current_session_id = some i) (hi0 : i ≠ 0)
    (ht : s.vm_start_time = some t) (ht0 : t ≠ 0) :
    (auto_shutdown_vm reason now stopOk s).1.vm_start_time = none ∧
    (auto_shutdown_vm reason now stopOk s).1.current_session_id = none ∧
    Event.endRecord i (now - t) ∈ (auto_shutdown_vm reason now stopOk s).2 := by
  refine ⟨rfl, rfl, ?_⟩
  simp [auto_shutdown_vm, clear_vm_start_time, hi, ht, hi0, ht0]

/-- Witness for C6 at a concrete open session with a *failed* stop call
and a token present. -/
theorem c6_witness :
    (auto_shutdown_vm "session_limit" 80 false openSession).1.vm_start_time = none ∧
    (auto_shutdown_vm "session_limit" 80 false openSession).1.current_session_id = none ∧
    Event.endRecord 1 (80 - 50) ∈ (auto_shutdown_vm "session_limit" 80 false openSession).2 :=
  c6_shutdown_always_closes openSession "session_limit" 80 false 1 50
    (by decide) (by decide) (by decide) (by decide)

/-- C10: both statistics queries guard their division — the
per-session stats report 0 seconds-per-image when the session holds no
images and `(total_duration_ms / 1000) / total_images` (a division by a
nonzero denominator) otherwise, and the all-time stats do the same over
the summed counters. -/
theorem c10_avg_division_guarded (db : List SessionRow) (sid : Int)
    (st : SessionStats) (h : get_session_stats db sid = some st) :
    (st.total_images = 0 → st.avg_seconds_per_image = 0) ∧
    (st.total_images > 0 →
      st.avg_seconds_per_image
          = ((st.total_duration_ms : ℚ) / 1000) / (st.total_images : ℚ) ∧
      (st.total_images : ℚ) ≠ 0) ∧
    ((get_all_time_stats db).total_images = 0 →
      (get_all_time_stats db).avg_seconds_per_image = 0) ∧
    ((get_all_time_stats db).total_images > 0 →
      (get_all_time_stats db).avg_seconds_per_image
          = (((get_all_time_stats db).total_duration_ms : ℚ) / 1000)
              / ((get_all_time_stats db).total_images : ℚ) ∧
      ((get_all_time_stats db).total_images : ℚ) ≠ 0) := by
  have hall :
      ((get_all_time_stats db).total_images = 0 →
        (get_all_time_stats db).avg_seconds_per_image = 0) ∧
      ((get_all_time_stats db).total_images > 0 →
        (get_all_time_stats db).avg_seconds_per_image
            = (((get_all_time_stats db).total_duration_ms : ℚ) / 1000)
                / ((get_all_time_stats db).total_images : ℚ) ∧
        ((get_all_time_stats db).total_images : ℚ) ≠ 0) := by
    unfold get_all_time_stats
    dsimp only
    constructor
    · intro h0
      rw [if_neg (by omega)]
    · intro hpos
      rw [if_pos hpos]
      refine ⟨rfl, ?_⟩
      exact_mod_cast (by omega : ¬ ((db.map (fun r => r.total_images)).sum = 0))
  unfold get_session_stats at h
  rcases hf : db.find? (fun r => r.id == sid) with _ | r
  · rw [hf] at h
    exact absurd h (by simp)
  · rw [hf] at h
    dsimp only at h
    by_cases hi : r.total_images > 0
    · rw [if_pos hi] at h
      injection h with h
      subst h
      refine ⟨fun h0 => ?_, fun _ => ⟨rfl, ?_⟩, hall.1, hall.2⟩
      · dsimp only at h0
        omega
      · dsimp only
        exact_mod_cast (by omega : ¬ (r.total_images = 0))
    · rw [if_neg hi] at h
      injection h with h
      subst h
      refine ⟨fun _ => rfl, fun hpos => ?_, hall.1, hall.2⟩
      dsimp only at hpos
      omega

/-- Witness for C10 on a one-session database: session 1 has 2 images
over 3000 ms, so the per-session average is computed with divisor 2. -/
theorem c10_witness :
    (((⟨2, 3000, 3000 / 2, 3000 / 1000 / 2⟩ : SessionStats).total_images = 0 →
        (⟨2, 3000, 3000 / 2, 3000 / 1000 / 2⟩ : SessionStats).avg_seconds_per_image = 0) ∧
      ((⟨2, 3000, 3000 / 2, 3000 / 1000 / 2⟩ : SessionStats).total_images > 0 →
        (⟨2, 3000, 3000 / 2, 3000 / 1000 / 2⟩ : SessionStats).avg_seconds_per_image
            = (((⟨2, 3000, 3000 / 2, 3000 / 1000 / 2⟩ : SessionStats).total_duration_ms : ℚ) / 1000)
                / ((⟨2, 3000, 3000 / 2, 3000 / 1000 / 2⟩ : SessionStats).total_images : ℚ) ∧
        ((⟨2, 3000, 3000 / 2, 3000 / 1000 / 2⟩ : SessionStats).total_images : ℚ) ≠ 0) ∧
      ((get_all_time_stats [⟨1, 2, 3000⟩]).total_images = 0 →
        (get_all_time_stats [⟨1, 2, 3000⟩]).avg_seconds_per_image = 0) ∧
      ((get_all_time_stats [⟨1, 2, 3000⟩]).total_images > 0 →
        (get_all_time_stats [⟨1, 2, 3000⟩]).avg_seconds_per_image
            = (((get_all_time_stats [⟨1, 2, 3000⟩]).total_duration_ms : ℚ) / 1000)
                / ((get_all_time_stats [⟨1, 2, 3000⟩]).total_images : ℚ) ∧
        ((get_all_time_stats [⟨1, 2, 3000⟩]).total_images : ℚ) ≠ 0)) :=
  c10_avg_division_guarded [⟨1, 2, 3000⟩] 1 ⟨2, 3000, 3000 / 2, 3000 / 1000 / 2⟩
    (by norm_num [get_session_stats, List.find?])

/-- C5 counterexample: a poll that observes RUNNING while no session is
open: the state before the poll has the inactivity warning latch
(`shutdown_warning_sent`) set, and after the open transition it is
*still* set — the open transition does not clear both warning flags. -/
theorem c5_counterexample :
    ({ tokState with shutdown_warning_sent := true,
                     last_activity_time := 100 } : DashState).vm_start_time = none ∧
    (inactivity_monitor_iter 130 true runningOk
        { tokState with shutdown_warning_sent := true,
                        last_activity_time := 100 }).1.vm_start_time = some 130 ∧
    (inactivity_monitor_iter 130 true runningOk
        { tokState with shutdown_warning_sent := true,
                        last_activity_time := 100 }).1.shutdown_warning_sent = true := by
  decide

/-- C5 (amended): a poll that observes RUNNING while no session is open
records `vm_start_time = now`, stores the freshly allocated record id
and clears the *session* warning flag, but leaves the inactivity
warning flag (`shutdown_warning_sent`) unchanged (the hypothesis on
`last_activity_time` keeps the same iteration's inactivity policy from
firing or warning). -/
theorem c5_running_open_transition (s : DashState) (now : Int) (stopOk : Bool)
    (gcp : GcpResult)
    (hen : s.auto_shutdown_enabled = true)
    (htok : truthyStr s.gcp_token = true)
    (hok : gcp.error = none) (hst : gcp.status = "RUNNING")
    (hclosed : s.vm_start_time = none)
    (hact : now - s.last_activity_time < 780) :
    (inactivity_monitor_iter now stopOk gcp s).1.vm_start_time = some now ∧
    (inactivity_monitor_iter now stopOk gcp s).1.current_session_id
        = some s.next_session_id ∧
    (inactivity_monitor_iter now stopOk gcp s).1.session_warning_sent = false ∧
    (inactivity_monitor_iter now stopOk gcp s).1.shutdown_warning_sent
        = s.shutdown_warning_sent ∧
    (inactivity_monitor_iter now stopOk gcp s).1.last_activity_time
        = s.last_activity_time ∧
    Event.beginRecord s.next_session_id ∈ (inactivity_monitor_iter now stopOk gcp s).2 := by
  have h1 : ¬ (max 0 (900 - (now - s.last_activity_time)) ≤ 120) := by omega
  have h2 : ¬ (max 0 (900 - (now - s.last_activity_time)) ≤ 0) := by omega
  have hres : inactivity_monitor_iter now stopOk gcp s =
      ({ s with vm_start_time := some now
                session_warning_sent := false
                current_session_id := some s.next_session_id
                next_session_id := s.next_session_id + 1 },
       [Event.gatewayStatus, Event.beginRecord s.next_session_id]) := by
    unfold inactivity_monitor_iter
    rw [get_vm_status_ok gcp hok, hst]
    unfold set_vm_start_time
    rw [hclosed]
    simp [hen, htok, get_time_until_session_end, get_session_seconds,
      get_time_until_inactivity_shutdown, get_inactivity_seconds,
      MAX_SESSION_SECONDS, INACTIVITY_TIMEOUT_SECONDS, h1, h2]
  rw [hres]
  exact ⟨rfl, rfl, rfl, rfl, rfl, by simp⟩

/-- Witness for C5 at a concrete closed state. -/
theorem c5_witness :
    (inactivity_monitor_iter 130 true runningOk tokState).1.vm_start_time = some 130 ∧
    (inactivity_monitor_iter 130 true runningOk tokState).1.current_session_id
        = some tokState.next_session_id ∧
    (inactivity_monitor_iter 130 true runningOk tokState).1.session_warning_sent = false ∧
    (inactivity_monitor_iter 130 true runningOk tokState).1.shutdown_warning_sent
        = tokState.shutdown_warning_sent ∧
    (inactivity_monitor_iter 130 true runningOk tokState).1.last_activity_time
        = tokState.last_activity_time ∧
    Event.beginRecord tokState.next_session_id
        ∈ (inactivity_monitor_iter 130 true runningOk tokState).2 :=
  c5_running_open_transition tokState 130 true runningOk
    (by decide) (by decide) (by decide) (by decide) (by decide) (by decide)

theorem clear_events_cases (now : Int) (s : DashState) :
    (clear_vm_start_time now s).2 = [] ∨
    ∃ i t, (clear_vm_start_time now s).2 = [Event.endRecord i (now - t)] := by
  unfold clear_vm_start_time
  dsimp only
  rcases hi : s.current_session_id with _ | i <;>
    rcases ht : s.vm_start_time with _ | t <;> dsimp only
  · exact Or.inl rfl
  · exact Or.inl rfl
  · exact Or.inl rfl
  · by_cases hit : i ≠ 0 ∧ t ≠ 0
    · rw [if_pos hit]
      exact Or.inr ⟨i, t, rfl⟩
    · rw [if_neg hit]
      exact Or.inl rfl

theorem shutdownReasons_clear (now : Int) (s : DashState) :
    shutdownReasons (clear_vm_start_time now s).2 = [] := by
  rcases clear_events_cases now s with h | ⟨i, t, h⟩ <;> rw [h] <;> rfl

theorem inactivityWarning_not_in_clear (now : Int) (s : DashState) :
    Event.inactivityWarning ∉ (clear_vm_start_time now s).2 := by
  rcases clear_events_cases now s with h | ⟨i, t, h⟩ <;> rw [h] <;> simp

/-- C7: in a poll iteration whose session clock has expired
(`now - t ≥ 7200` for the open start time `t`), the only shutdown
triggered is the session-limit one, no inactivity warning or inactivity
shutdown happens in the same iteration, and activity is notified right
after (`last_activity_time = now`, inactivity warning latch cleared);
the session is closed. -/
theorem c7_session_limit_precedence (s : DashState) (now : Int) (stopOk : Bool)
    (gcp : GcpResult) (t : Int)
    (hen : s.auto_shutdown_enabled = true)
    (htok : truthyStr s.gcp_token = true)
    (hok : gcp.error = none) (hst : gcp.status = "RUNNING")
    (hvm : s.vm_start_time = some t)
    (hexp : now - t ≥ 7200) :
    shutdownReasons (inactivity_monitor_iter now stopOk gcp s).2 = ["session_limit"] ∧
    Event.inactivityWarning ∉ (inactivity_monitor_iter now stopOk gcp s).2 ∧
    (inactivity_monitor_iter now stopOk gcp s).1.last_activity_time = now ∧
    (inactivity_monitor_iter now stopOk gcp s).1.shutdown_warning_sent = false ∧
    (inactivity_monitor_iter now stopOk gcp s).1.vm_start_time = none := by
  have h0 : max 0 ((7200 : Int) - (now - t)) = 0 := by omega
  have hres : inactivity_monitor_iter now stopOk gcp s =
      (update_activity now (clear_vm_start_time now s).1,
       Event.gatewayStatus :: Event.shutdown "session_limit" ::
         Event.gatewayStop stopOk :: (clear_vm_start_time now s).2) := by
    unfold inactivity_monitor_iter
    rw [get_vm_status_ok gcp hok, hst]
    unfold set_vm_start_time
    rw [hvm]
    simp [hen, htok, auto_shutdown_vm, get_time_until_session_end,
      get_session_seconds, MAX_SESSION_SECONDS, hvm, h0]
  rw [hres]
  refine ⟨?_, ?_, rfl, rfl, rfl⟩
  · have h3 := shutdownReasons_clear now s
    simp only [shutdownReasons] at h3 ⊢
    simp [h3]
  · simp [inactivityWarning_not_in_clear now s]

/-- Witness for C7: openSession (started at t = 50) polled at t = 7250. -/
theorem c7_witness :
    shutdownReasons (inactivity_monitor_iter 7250 true runningOk openSession).2
        = ["session_limit"] ∧
    Event.inactivityWarning ∉ (inactivity_monitor_iter 7250 true runningOk openSession).2 ∧
    (inactivity_monitor_iter 7250 true runningOk openSession).1.last_activity_time = 7250 ∧
    (inactivity_monitor_iter 7250 true runningOk openSession).1.shutdown_warning_sent = false ∧
    (inactivity_monitor_iter 7250 true runningOk openSession).1.vm_start_time = none :=
  c7_session_limit_precedence openSession 7250 true runningOk 50
    (by decide) (by decide) (by decide) (by decide) (by decide) (by decide)

/-- C3 counterexample: with a session open, a poll that observes the
Transitioning status `"STAGING"` *does* change SessionState — the
recorded start time is wiped by the non-RUNNING branch. -/
theorem c3_counterexample :
    openSession.vm_start_time = some 50 ∧
    (inactivity_monitor_iter 100 true stagingOk openSession).1.vm_start_time = none := by
  decide

/-- C3 (amended): a poll observing Transitioning
(`"STAGING"`/`"PROVISIONING"`) or `"ERROR"` takes the same branch as
NotRunning: it closes any open session — the open record is ended with
the elapsed runtime `now - t` and the start time, session id and
session warning are cleared — and leaves the activity clock, the
inactivity warning latch and the token alone; only when no session was
open (and hence no session id or session warning held) is the state
unchanged. -/
theorem c3_nonrunning_reconciles (s : DashState) (now : Int) (stopOk : Bool)
    (gcp : GcpResult)
    (hen : s.auto_shutdown_enabled = true)
    (htok : truthyStr s.gcp_token = true)
    (hst : (get_vm_status gcp).status = "STAGING" ∨
           (get_vm_status gcp).status = "PROVISIONING" ∨
           (get_vm_status gcp).status = "ERROR") :
    (inactivity_monitor_iter now stopOk gcp s).1.vm_start_time = none ∧
    (inactivity_monitor_iter now stopOk gcp s).1.current_session_id = none ∧
    (inactivity_monitor_iter now stopOk gcp s).1.session_warning_sent = false ∧
    (inactivity_monitor_iter now stopOk gcp s).1.last_activity_time
        = s.last_activity_time ∧
    (inactivity_monitor_iter now stopOk gcp s).1.shutdown_warning_sent
        = s.shutdown_warning_sent ∧
    (inactivity_monitor_iter now stopOk gcp s).1.gcp_token = s.gcp_token ∧
    (s.vm_start_time = none → s.current_session_id = none →
      s.session_warning_sent = false →
      (inactivity_monitor_iter now stopOk gcp s).1 = s) ∧
    (∀ i t, s.current_session_id = some i → i ≠ 0 →
      s.vm_start_time = some t → t ≠ 0 →
      Event.endRecord i (now - t) ∈ (inactivity_monitor_iter now stopOk gcp s).2) := by
  have hne : (get_vm_status gcp).status ≠ "RUNNING" := by
    rcases hst with h | h | h <;> rw [h] <;> decide
  have hres : inactivity_monitor_iter now stopOk gcp s =
      ((clear_vm_start_time now s).1,
        Event.gatewayStatus :: (clear_vm_start_time now s).2) := by
    unfold inactivity_monitor_iter
    simp [hen, htok, hne]
  rw [hres]
  refine ⟨rfl, rfl, rfl, rfl, rfl, rfl, ?_, ?_⟩
  · intro h1 h2 h3
    unfold clear_vm_start_time
    cases s
    simp_all
  · intro i t hi hi0 ht ht0
    simp [clear_vm_start_time, hi, ht, hi0, ht0]

/-- Witness for C3 at a concrete open session (record 1 begun at
t = 50) and a STAGING poll at t = 100: the session id is cleared and
the record is ended with runtime 50. -/
theorem c3_witness :
    (inactivity_monitor_iter 100 true stagingOk openSession).1.current_session_id
        = none ∧
    Event.endRecord 1 (100 - 50)
        ∈ (inactivity_monitor_iter 100 true stagingOk openSession).2 :=
  ⟨(c3_nonrunning_reconciles openSession 100 true stagingOk
      (by decide) (by decide) (by decide)).2.1,
   (c3_nonrunning_reconciles openSession 100 true stagingOk
      (by decide) (by decide) (by decide)).2.2.2.2.2.2.2 1 50
      (by decide) (by decide) (by decide) (by decide)⟩

theorem gatewayStatus_in_iter (now : Int) (stopOk : Bool) (gcp : GcpResult)
    (s : DashState) (hen : s.auto_shutdown_enabled = true)
    (htok : truthyStr s.gcp_token = true) :
    Event.gatewayStatus ∈ (inactivity_monitor_iter now stopOk gcp s).2 := by
  unfold inactivity_monitor_iter
  simp only [hen, htok, Bool.not_true, Bool.or_self, Bool.false_eq_true, if_false]
  repeat' split
  all_goals simp

/-- C2 counterexample: a poll whose status query is rejected with HTTP
401 (credential-invalid) while a session is open: SessionState *is*
mutated (the open session is closed), the stored token is *not*
cleared, and the next poll still issues a Gateway status call. -/
theorem c2_counterexample :
    openSession.vm_start_time = some 50 ∧
    (inactivity_monitor_iter 100 true err401 openSession).1.vm_start_time = none ∧
    (inactivity_monitor_iter 100 true err401 openSession).1.gcp_token = some "tok" ∧
    Event.gatewayStatus ∈
      (inactivity_monitor_iter 130 true err401
        (inactivity_monitor_iter 100 true err401 openSession).1).2 := by
  decide

/-- C2 (amended): a credential-invalid status query is folded into
status `"ERROR"` (its 401 code is dropped by `get_vm_status`), so the
poll treats it as NotRunning: it closes any open session via
`clear_vm_start_time`, keeps the stored token, and the next poll—with
no new credentials supplied—still makes a Gateway status call. -/
theorem c2_credential_invalid_behavior (s : DashState) (now now2 : Int)
    (stopOk stopOk2 : Bool) (gcp gcp2 : GcpResult) (e : String)
    (hen : s.auto_shutdown_enabled = true)
    (htok : truthyStr s.gcp_token = true)
    (herr : gcp.error = some e) (hcode : gcp.code = some 401) :
    (get_vm_status gcp).status = "ERROR" ∧
    (inactivity_monitor_iter now stopOk gcp s).1 = (clear_vm_start_time now s).1 ∧
    (inactivity_monitor_iter now stopOk gcp s).1.gcp_token = s.gcp_token ∧
    Event.gatewayStatus ∈
      (inactivity_monitor_iter now2 stopOk2 gcp2
        (inactivity_monitor_iter now stopOk gcp s).1).2 := by
  have hst : (get_vm_status gcp).status = "ERROR" := by
    rw [get_vm_status_err gcp e herr]
    simp [hcode]
  have hne : (get_vm_status gcp).status ≠ "RUNNING" := by
    rw [hst]
    decide
  have hres : inactivity_monitor_iter now stopOk gcp s =
      ((clear_vm_start_time now s).1,
        Event.gatewayStatus :: (clear_vm_start_time now s).2) := by
    unfold inactivity_monitor_iter
    simp [hen, htok, hne]
  rw [hres]
  exact ⟨hst, rfl, rfl, gatewayStatus_in_iter now2 stopOk2 gcp2 _ hen htok⟩

/-- Witness for C2 at a concrete open session and two 401 polls. -/
theorem c2_witness :
    Event.gatewayStatus ∈
      (inactivity_monitor_iter 130 false err401
        (inactivity_monitor_iter 100 false err401 openSession).1).2 :=
  (c2_credential_invalid_behavior openSession 100 130 false false err401 err401
    "Token expired or invalid" (by decide) (by decide) (by decide) (by decide)).2.2.2

theorem record_inv_clear (now : Int) (s : DashState) :
    record_inv (clear_vm_start_time now s).1 := by
  intro h
  simp [clear_vm_start_time] at h

theorem record_inv_update (now : Int) (s : DashState) (hs : record_inv s) :
    record_inv (update_activity now s) := hs

theorem record_inv_set (now : Int) (s : DashState) (hs : record_inv s) :
    record_inv (set_vm_start_time now s).1 := by
  unfold set_vm_start_time
  rcases h : s.vm_start_time with _ | t
  · intro _
    rfl
  · exact hs

theorem record_inv_iter (now : Int) (stopOk : Bool) (gcp : GcpResult)
    (s : DashState) (hs : record_inv s) :
    record_inv (inactivity_monitor_iter now stopOk gcp s).1 := by
  unfold inactivity_monitor_iter
  dsimp only
  repeat' split
  all_goals first
    | exact hs
    | exact record_inv_clear now s
    | exact record_inv_set now s hs

theorem record_inv_applyOp (op : Op) (s : DashState) (hs : record_inv s) :
    record_inv (applyOp op s) := by
  cases op with
  | poll now stopOk gcp => exact record_inv_iter now stopOk gcp s hs
  | setToken now token gcp =>
      show record_inv (api_set_token now token gcp s)
      unfold api_set_token
      dsimp only
      repeat' split
      all_goals exact hs
  | statusQuery now gcp =>
      show record_inv (api_status now gcp s)
      unfold api_status
      dsimp only
      repeat' split
      all_goals exact hs
  | start now =>
      show record_inv (api_start now s)
      unfold api_start
      split
      · exact hs
      · exact hs
  | stop now stopOk =>
      show record_inv (api_stop now stopOk s).1
      unfold api_stop
      dsimp only
      split
      · exact hs
      · exact record_inv_clear now s
  | keepalive now => exact hs
  | track now dbOpen =>
      show record_inv (api_track now dbOpen s)
      unfold api_track
      dsimp only
      split
      · exact hs
      · split
        · intro _
          rfl
        · intro _
          rfl

/-- C4 counterexample: one generation-tracking call (`/api/track`) from
the fresh state reaches a state holding a session record id while no
start time is set — so 'recordId is set' and 'sessionStartedAt is set'
are not equivalent in every reachable state. -/
theorem c4_counterexample :
    Reachable (applyOp (Op.track 5 none) initState) ∧
    (applyOp (Op.track 5 none) initState).current_session_id = some 1 ∧
    (applyOp (Op.track 5 none) initState).vm_start_time = none :=
  ⟨Reachable.step initState (Op.track 5 none) Reachable.init, by decide, by decide⟩

/-- C4 (amended): in every reachable state one direction holds — a set
start time (`vm_start_time`, the open/`sessionStartedAt` marker)
implies a held record id (`current_session_id`); the converse is
broken only by generation tracking. -/
theorem c4_record_invariant (s : DashState) (h : Reachable s) :
    s.vm_start_time.isSome = true → s.current_session_id.isSome = true := by
  induction h with
  | init => exact fun hh => absurd hh (by decide)
  | step s op hs ih => exact record_inv_applyOp op s ih

/-- Witness for C4 on a reachable open state: set a token, then one
RUNNING poll. -/
theorem c4_witness :
    (applyOp (Op.poll 30 true runningOk)
      (applyOp (Op.setToken 10 "tok" runningOk) initState)).current_session_id.isSome
      = true :=
  c4_record_invariant _
    (Reachable.step _ _ (Reachable.step _ _ Reachable.init)) (by decide)

/-- C1 counterexample: session limit 7200 s, poll cadence 30 s, every
poll observes RUNNING, and no user action or activity notification
occurs.  Over the whole run past the limit (241 polls, t = 30 … 7230)
*no* session-limit shutdown is triggered — the inactivity policy
(timeout 900 s) fires first, closing and re-opening the session every
900 s, so the session clock never reaches 7200 s. -/
theorem c1_counterexample :
    ((runPolls true runningOk (pollTimes 30 241) tokState).2.filter
        (fun p => decide (p.2 = Event.shutdown "session_limit"))) = [] ∧
    ((runPolls true runningOk (pollTimes 30 241) tokState).2.filter
        (fun p => decide (p.2 = Event.shutdown "inactivity"))) ≠ [] := by
  decide

set_option maxRecDepth 8000 in
/-- C1 (amended): in the same scenario but with the inactivity clock
kept alive (an activity notification lands before every poll), the run
triggers exactly one shutdown, a session-limit one, at t = 7230 — the
first poll whose elapsed time since the session opened (first poll,
t = 30) is at least 7200 s — and the session is closed
(`vm_start_time = none`) immediately after that iteration. -/
theorem c1_session_limit_scenario :
    ((runPollsKeepalive true runningOk (pollTimes 30 241) tokState).2.filter
        (fun p => decide (p.2 = Event.shutdown "session_limit")))
      = [(7230, Event.shutdown "session_limit")] ∧
    shutdownReasons ((runPollsKeepalive true runningOk (pollTimes 30 241)
        tokState).2.map Prod.snd) = ["session_limit"] ∧
    ((pollTimes 30 241).filter (fun t => decide (t - 30 ≥ 7200))) = [7230] ∧
    (runPollsKeepalive true runningOk (pollTimes 30 241) tokState).1.vm_start_time
      = none := by
  decide

/-- C8: inactivity timeout 900 s, warning threshold 120 s, polling
every 30 s from process start with no intervening activity: the epoch
up to the inactivity shutdown at t = 900 produces exactly one
inactivity warning event, at t = 780 — and 780 is the first evaluation
time at which the remaining inactivity time `max 0 (900 - t)` has
dropped to at most 120 s. -/
theorem c8_single_warning_per_epoch :
    ((runPolls true runningOk (pollTimes 30 30) tokState).2.filter
        (fun p => decide (p.2 = Event.inactivityWarning)))
      = [(780, Event.inactivityWarning)] ∧
    ((pollTimes 30 30).filter (fun t => decide (max 0 (900 - t) ≤ 120))).head?
      = some 780 := by
  decide

end SDStudio
